import Mathlib

/-!
Verification of the GPA engine of `src/src/App.tsx` (CGPA_CAL).

JavaScript numbers are modelled as rationals (`ℚ`); all arithmetic the
engine performs is exact on the inputs the claims consider.  A thrown
JavaScript exception is modelled as `Except.error` carrying the error
object's class name and message: `new Error(msg)` constructs an object
of class `"Error"` with message `msg`.  `Math.round` is JavaScript's
round-half-toward-`+∞`, i.e. `⌊x + 1/2⌋`.  `String.prototype.toUpperCase`
is modelled as character-wise ASCII uppercasing, which agrees with
JavaScript on every input the program stores (single Latin letters).
-/

namespace CGPA

/-- One row of `GRADING_SCALE`. -/
structure GradeBand where
  minScore : ℚ
  maxScore : ℚ
  grade : String
  point : ℚ
deriving DecidableEq, Repr

/-- `GRADING_SCALE` from `src/src/App.tsx` lines 796–803. -/
def GRADING_SCALE : List GradeBand :=
  [ ⟨70, 100, "A", 5⟩,
    ⟨60, 69, "B", 4⟩,
    ⟨50, 59, "C", 3⟩,
    ⟨45, 49, "D", 2⟩,
    ⟨40, 44, "E", 1⟩,
    ⟨0, 39, "F", 0⟩ ]

/-- A thrown JavaScript exception: the error object's class name and message. -/
structure JsError where
  name : String
  message : String
deriving DecidableEq, Repr

instance {ε α : Type} [DecidableEq ε] [DecidableEq α] : DecidableEq (Except ε α)
  | .error e, .error f => if h : e = f then .isTrue (by rw [h]) else .isFalse (by simp [h])
  | .error _, .ok _ => .isFalse (by simp)
  | .ok _, .error _ => .isFalse (by simp)
  | .ok a, .ok b => if h : a = b then .isTrue (by rw [h]) else .isFalse (by simp [h])

/-- The exception thrown by `scoreToGrade`:
`new Error('Score must be between 0 and 100')`, an object of class `Error`. -/
def scoreRangeError : JsError :=
  ⟨"Error", "Score must be between 0 and 100"⟩

/-- `String.prototype.toUpperCase`, modelled character-wise (ASCII). -/
def toUpperCase (s : String) : String :=
  ⟨s.data.map Char.toUpper⟩

/-- `scoreToGrade` (App.tsx lines 810–821): validate the range, then
`GRADING_SCALE.find((g) => score >= g.minScore && score <= g.maxScore)`,
defaulting to `'F'` via `gradeEntry?.grade || 'F'`. -/
def scoreToGrade (score : ℚ) : Except JsError String :=
  if score < 0 ∨ score > 100 then
    .error scoreRangeError
  else
    match GRADING_SCALE.find? (fun g => decide (score ≥ g.minScore) && decide (score ≤ g.maxScore)) with
    | some g => .ok g.grade
    | none => .ok "F"

/-- `gradeToPoint` (App.tsx lines 828–831):
`GRADING_SCALE.find((g) => g.grade === grade.toUpperCase())`, then
`gradeEntry?.point || 0`.  Total: unknown letters yield `0`. -/
def gradeToPoint (grade : String) : ℚ :=
  match GRADING_SCALE.find? (fun g => g.grade == toUpperCase grade) with
  | some g => g.point
  | none => 0

/-- `scoreToPoint` (App.tsx lines 838–841): `gradeToPoint(scoreToGrade(score))`,
with the exception of `scoreToGrade` propagating. -/
def scoreToPoint (score : ℚ) : Except JsError ℚ :=
  (scoreToGrade score).map gradeToPoint

/-- JavaScript `Math.round`: round half toward `+∞`, i.e. `⌊x + 1/2⌋`. -/
def mathRound (q : ℚ) : ℤ :=
  ⌊q + 1/2⌋

/-- `Math.round(q * 100) / 100`, the two-decimal rounding used by the engine. -/
def round2 (q : ℚ) : ℚ :=
  (mathRound (q * 100) : ℚ) / 100

/-- An element of `calculateGPA`'s input: `{ gradePoint, courseUnit }`. -/
structure CourseResult where
  gradePoint : ℚ
  courseUnit : ℚ
deriving DecidableEq, Repr

/-- `calculateGPA`'s return value: `{ gpa, totalUnits, totalPoints }`. -/
structure GPAResult where
  gpa : ℚ
  totalUnits : ℚ
  totalPoints : ℚ
deriving DecidableEq, Repr

/-- `calculateGPA` (App.tsx lines 859–883). -/
def calculateGPA (results : List CourseResult) : GPAResult :=
  if results.length = 0 then
    ⟨0, 0, 0⟩
  else
    let totalUnits := results.foldl (fun sum r => sum + r.courseUnit) 0
    let totalPoints := results.foldl (fun sum r => sum + r.gradePoint * r.courseUnit) 0
    if totalUnits = 0 then
      ⟨0, 0, 0⟩
    else
      let gpa := totalPoints / totalUnits
      ⟨round2 gpa, totalUnits, totalPoints⟩

/-- An element of `calculateCGPA`'s input: `{ totalUnits, totalPoints }`. -/
structure SemesterResult where
  totalUnits : ℚ
  totalPoints : ℚ
deriving DecidableEq, Repr

/-- `calculateCGPA`'s return value: `{ cgpa, totalUnits, totalPoints }`. -/
structure CGPAResult where
  cgpa : ℚ
  totalUnits : ℚ
  totalPoints : ℚ
deriving DecidableEq, Repr

/-- `calculateCGPA` (App.tsx lines 891–915). -/
def calculateCGPA (semesterResults : List SemesterResult) : CGPAResult :=
  if semesterResults.length = 0 then
    ⟨0, 0, 0⟩
  else
    let totalUnits := semesterResults.foldl (fun sum s => sum + s.totalUnits) 0
    let totalPoints := semesterResults.foldl (fun sum s => sum + s.totalPoints) 0
    if totalUnits = 0 then
      ⟨0, 0, 0⟩
    else
      let cgpa := totalPoints / totalUnits
      ⟨round2 cgpa, totalUnits, totalPoints⟩

/-- `getClassOfDegree` (App.tsx lines 922–929). -/
def getClassOfDegree (cgpa : ℚ) : String :=
  if cgpa ≥ 4.5 then "First Class Honours"
  else if cgpa ≥ 3.5 then "Second Class Upper"
  else if cgpa ≥ 2.5 then "Second Class Lower"
  else if cgpa ≥ 1.5 then "Third Class"
  else if cgpa ≥ 1.0 then "Pass"
  else "Fail"

/-- Characterization of `scoreToGrade` on in-range scores: the table is
searched top-down, and any score missed by every band (the non-integer
gap points) falls through to the `'F'` default. -/
theorem scoreToGrade_eq (score : ℚ) (h0 : 0 ≤ score) (h1 : score ≤ 100) :
    scoreToGrade score = .ok
      (if 70 ≤ score then "A"
       else if 60 ≤ score ∧ score ≤ 69 then "B"
       else if 50 ≤ score ∧ score ≤ 59 then "C"
       else if 45 ≤ score ∧ score ≤ 49 then "D"
       else if 40 ≤ score ∧ score ≤ 44 then "E"
       else "F") := by
  rw [scoreToGrade, if_neg (by push_neg; exact ⟨h0, h1⟩), GRADING_SCALE]
  by_cases h70 : 70 ≤ score
  · simp [ge_iff_le, h70, h1]
  · by_cases h60 : 60 ≤ score
    · by_cases h69 : score ≤ 69
      · simp [ge_iff_le, h70, h60, h69]
      · have hgt : 69 < score := not_le.mp h69
        have n59 : ¬ score ≤ 59 := by linarith
        have n49 : ¬ score ≤ 49 := by linarith
        have n44 : ¬ score ≤ 44 := by linarith
        have n39 : ¬ score ≤ 39 := by linarith
        simp [ge_iff_le, h70, h69, n59, n49, n44, n39]
    · by_cases h50 : 50 ≤ score
      · by_cases h59 : score ≤ 59
        · simp [ge_iff_le, h70, h60, h50, h59]
        · have hgt : 59 < score := not_le.mp h59
          have n49 : ¬ score ≤ 49 := by linarith
          have n44 : ¬ score ≤ 44 := by linarith
          have n39 : ¬ score ≤ 39 := by linarith
          simp [ge_iff_le, h70, h60, h59, n49, n44, n39]
      · by_cases h45 : 45 ≤ score
        · by_cases h49 : score ≤ 49
          · simp [ge_iff_le, h70, h60, h50, h45, h49]
          · have hgt : 49 < score := not_le.mp h49
            have n44 : ¬ score ≤ 44 := by linarith
            have n39 : ¬ score ≤ 39 := by linarith
            simp [ge_iff_le, h70, h60, h50, h49, n44, n39]
        · by_cases h40 : 40 ≤ score
          · by_cases h44 : score ≤ 44
            · simp [ge_iff_le, h70, h60, h50, h45, h40, h44]
            · have hgt : 44 < score := not_le.mp h44
              have n39 : ¬ score ≤ 39 := by linarith
              simp [ge_iff_le, h70, h60, h50, h45, h44, n39]
          · by_cases h39 : score ≤ 39
            · simp [ge_iff_le, h70, h60, h50, h45, h40, h39, h0]
            · simp [ge_iff_le, h70, h60, h50, h45, h40, h39, h0]

/-- The engine's left folds are plain sums. -/
theorem foldl_add_map {α : Type} (f : α → ℚ) (l : List α) (a : ℚ) :
    l.foldl (fun sum r => sum + f r) a = a + (l.map f).sum := by
  induction l generalizing a with
  | nil => simp
  | cons x xs ih => simp [List.foldl_cons, ih, add_assoc]

/-- C1: on a non-empty course list with positive unit sum, `calculateGPA`
returns the unit sum, the Σ gradePoint·courseUnit sum, and their quotient
rounded to two decimals; `calculateGPA([⟨5,3⟩,⟨3,2⟩]) = ⟨4.20, 5, 21⟩`. -/
theorem calculateGPA_spec :
    (∀ results : List CourseResult, results ≠ [] →
        0 < (results.map fun r => r.courseUnit).sum →
        calculateGPA results =
          ⟨round2 ((results.map fun r => r.gradePoint * r.courseUnit).sum /
                   (results.map fun r => r.courseUnit).sum),
           (results.map fun r => r.courseUnit).sum,
           (results.map fun r => r.gradePoint * r.courseUnit).sum⟩) ∧
    calculateGPA [⟨5, 3⟩, ⟨3, 2⟩] = ⟨4.20, 5, 21⟩ := by
  constructor
  · intro results hne hpos
    rw [calculateGPA, if_neg (by simpa using hne)]
    simp only [foldl_add_map, zero_add]
    rw [if_neg hpos.ne']
  · norm_num [calculateGPA, round2, mathRound, List.foldl]

theorem calculateGPA_spec_witness :
    calculateGPA [⟨5, 1⟩] =
      ⟨round2 ((([⟨5, 1⟩] : List CourseResult).map fun r => r.gradePoint * r.courseUnit).sum /
               (([⟨5, 1⟩] : List CourseResult).map fun r => r.courseUnit).sum),
       (([⟨5, 1⟩] : List CourseResult).map fun r => r.courseUnit).sum,
       (([⟨5, 1⟩] : List CourseResult).map fun r => r.gradePoint * r.courseUnit).sum⟩ :=
  calculateGPA_spec.1 [⟨5, 1⟩] (by simp) (by norm_num)

/-- C2: on a non-empty semester list with positive unit sum, `calculateCGPA`
adds the per-semester totals and rounds their quotient to two decimals;
`calculateCGPA([⟨5,21⟩,⟨4,12⟩]) = ⟨3.67, 9, 33⟩`. -/
theorem calculateCGPA_spec :
    (∀ sems : List SemesterResult, sems ≠ [] →
        0 < (sems.map fun s => s.totalUnits).sum →
        calculateCGPA sems =
          ⟨round2 ((sems.map fun s => s.totalPoints).sum /
                   (sems.map fun s => s.totalUnits).sum),
           (sems.map fun s => s.totalUnits).sum,
           (sems.map fun s => s.totalPoints).sum⟩) ∧
    calculateCGPA [⟨5, 21⟩, ⟨4, 12⟩] = ⟨3.67, 9, 33⟩ := by
  constructor
  · intro sems hne hpos
    rw [calculateCGPA, if_neg (by simpa using hne)]
    simp only [foldl_add_map, zero_add]
    rw [if_neg hpos.ne']
  · norm_num [calculateCGPA, round2, mathRound, List.foldl]

theorem calculateCGPA_spec_witness :
    calculateCGPA [⟨4, 12⟩] =
      ⟨round2 ((([⟨4, 12⟩] : List SemesterResult).map fun s => s.totalPoints).sum /
               (([⟨4, 12⟩] : List SemesterResult).map fun s => s.totalUnits).sum),
       (([⟨4, 12⟩] : List SemesterResult).map fun s => s.totalUnits).sum,
       (([⟨4, 12⟩] : List SemesterResult).map fun s => s.totalPoints).sum⟩ :=
  calculateCGPA_spec.1 [⟨4, 12⟩] (by simp) (by norm_num)

/-- C6: the empty list and every zero-unit-sum input produce the all-zero
sentinel, with the returned `totalPoints` zeroed regardless of the input's
summed points, and no division by zero or exception. -/
theorem zero_units_sentinel :
    calculateGPA [] = ⟨0, 0, 0⟩ ∧
    (∀ results : List CourseResult, (results.map fun r => r.courseUnit).sum = 0 →
        calculateGPA results = ⟨0, 0, 0⟩) ∧
    calculateCGPA [] = ⟨0, 0, 0⟩ ∧
    (∀ sems : List SemesterResult, (sems.map fun s => s.totalUnits).sum = 0 →
        calculateCGPA sems = ⟨0, 0, 0⟩) := by
  refine ⟨rfl, ?_, rfl, ?_⟩
  · intro results h
    rw [calculateGPA]
    by_cases hne : results.length = 0
    · rw [if_pos hne]
    · rw [if_neg hne]
      simp only [foldl_add_map, zero_add]
      rw [if_pos h]
  · intro sems h
    rw [calculateCGPA]
    by_cases hne : sems.length = 0
    · rw [if_pos hne]
    · rw [if_neg hne]
      simp only [foldl_add_map, zero_add]
      rw [if_pos h]

theorem zero_units_sentinel_witness :
    calculateGPA [⟨5, 0⟩] = ⟨0, 0, 0⟩ ∧ calculateCGPA [⟨0, 21⟩] = ⟨0, 0, 0⟩ :=
  ⟨zero_units_sentinel.2.1 [⟨5, 0⟩] (by norm_num),
   zero_units_sentinel.2.2.2 [⟨0, 21⟩] (by norm_num)⟩

/-- Characterization of `scoreToPoint` on in-range scores. -/
theorem scoreToPoint_eq (score : ℚ) (h0 : 0 ≤ score) (h1 : score ≤ 100) :
    scoreToPoint score = .ok
      (if 70 ≤ score then 5
       else if 60 ≤ score ∧ score ≤ 69 then 4
       else if 50 ≤ score ∧ score ≤ 59 then 3
       else if 45 ≤ score ∧ score ≤ 49 then 2
       else if 40 ≤ score ∧ score ≤ 44 then 1
       else 0) := by
  rw [scoreToPoint, scoreToGrade_eq score h0 h1]
  split_ifs <;> rfl

/-- `scoreToPoint` at an integer score, with the band tests read over `ℕ`. -/
theorem scoreToPoint_natCast (n : ℕ) (hn : n ≤ 100) :
    scoreToPoint (n : ℚ) = .ok
      (if 70 ≤ n then 5
       else if 60 ≤ n then 4
       else if 50 ≤ n then 3
       else if 45 ≤ n then 2
       else if 40 ≤ n then 1
       else 0) := by
  rw [scoreToPoint_eq (n : ℚ) (by positivity) (by exact_mod_cast hn)]
  by_cases h70 : 70 ≤ n
  · have q70 : (70 : ℚ) ≤ (n : ℚ) := by exact_mod_cast h70
    simp [q70, h70]
  · have q70 : ¬ (70 : ℚ) ≤ (n : ℚ) := by exact_mod_cast h70
    by_cases h60 : 60 ≤ n
    · have q60 : (60 : ℚ) ≤ (n : ℚ) := by exact_mod_cast h60
      have q69 : (n : ℚ) ≤ 69 := by exact_mod_cast (by omega : n ≤ 69)
      simp [q70, q60, q69, h70, h60]
    · have q60 : ¬ (60 : ℚ) ≤ (n : ℚ) := by exact_mod_cast h60
      by_cases h50 : 50 ≤ n
      · have q50 : (50 : ℚ) ≤ (n : ℚ) := by exact_mod_cast h50
        have q59 : (n : ℚ) ≤ 59 := by exact_mod_cast (by omega : n ≤ 59)
        simp [q70, q60, q50, q59, h70, h60, h50]
      · have q50 : ¬ (50 : ℚ) ≤ (n : ℚ) := by exact_mod_cast h50
        by_cases h45 : 45 ≤ n
        · have q45 : (45 : ℚ) ≤ (n : ℚ) := by exact_mod_cast h45
          have q49 : (n : ℚ) ≤ 49 := by exact_mod_cast (by omega : n ≤ 49)
          simp [q70, q60, q50, q45, q49, h70, h60, h50, h45]
        · have q45 : ¬ (45 : ℚ) ≤ (n : ℚ) := by exact_mod_cast h45
          by_cases h40 : 40 ≤ n
          · have q40 : (40 : ℚ) ≤ (n : ℚ) := by exact_mod_cast h40
            have q44 : (n : ℚ) ≤ 44 := by exact_mod_cast (by omega : n ≤ 44)
            simp [q70, q60, q50, q45, q40, q44, h70, h60, h50, h45, h40]
          · have q40 : ¬ (40 : ℚ) ≤ (n : ℚ) := by exact_mod_cast h40
            simp [q70, q60, q50, q45, q40, h70, h60, h50, h45, h40]

/-- C3: the table lists exactly the six bands 70–100→A/5, 60–69→B/4,
50–59→C/3, 45–49→D/2, 40–44→E/1, 0–39→F/0, and every integer score in
`[0,100]` satisfies `minScore ≤ score ≤ maxScore` for exactly one band. -/
theorem GRADING_SCALE_partition :
    GRADING_SCALE =
      [ ⟨70, 100, "A", 5⟩, ⟨60, 69, "B", 4⟩, ⟨50, 59, "C", 3⟩,
        ⟨45, 49, "D", 2⟩, ⟨40, 44, "E", 1⟩, ⟨0, 39, "F", 0⟩ ] ∧
    ∀ n : ℕ, n ≤ 100 →
      (GRADING_SCALE.filter
        (fun g => decide (g.minScore ≤ (n : ℚ)) && decide ((n : ℚ) ≤ g.maxScore))).length = 1 := by
  refine ⟨rfl, ?_⟩
  have h : ∀ n ∈ Finset.range 101,
      (GRADING_SCALE.filter
        (fun g => decide (g.minScore ≤ (n : ℚ)) && decide ((n : ℚ) ≤ g.maxScore))).length = 1 := by
    decide
  intro n hn
  exact h n (Finset.mem_range.mpr (Nat.lt_succ_of_le hn))

theorem GRADING_SCALE_partition_witness :
    (GRADING_SCALE.filter
      (fun g => decide (g.minScore ≤ ((70 : ℕ) : ℚ)) && decide (((70 : ℕ) : ℚ) ≤ g.maxScore))).length = 1 :=
  GRADING_SCALE_partition.2 70 (by norm_num)

/-- C5: `getClassOfDegree` is the first-match descending threshold ladder
4.50 / 3.50 / 2.50 / 1.50 / 1.00, with `getClassOfDegree 4.50 = First Class
Honours` and `getClassOfDegree 4.49 = Second Class Upper`. -/
theorem getClassOfDegree_spec :
    (∀ c : ℚ, 4.5 ≤ c → getClassOfDegree c = "First Class Honours") ∧
    (∀ c : ℚ, 3.5 ≤ c → c < 4.5 → getClassOfDegree c = "Second Class Upper") ∧
    (∀ c : ℚ, 2.5 ≤ c → c < 3.5 → getClassOfDegree c = "Second Class Lower") ∧
    (∀ c : ℚ, 1.5 ≤ c → c < 2.5 → getClassOfDegree c = "Third Class") ∧
    (∀ c : ℚ, 1 ≤ c → c < 1.5 → getClassOfDegree c = "Pass") ∧
    (∀ c : ℚ, c < 1 → getClassOfDegree c = "Fail") ∧
    getClassOfDegree 4.50 = "First Class Honours" ∧
    getClassOfDegree 4.49 = "Second Class Upper" := by
  refine ⟨?_, ?_, ?_, ?_, ?_, ?_,
    by norm_num [getClassOfDegree], by norm_num [getClassOfDegree]⟩
  · intro c h
    rw [getClassOfDegree, if_pos h]
  · intro c h1 h2
    rw [getClassOfDegree, if_neg (not_le.mpr h2), if_pos h1]
  · intro c h1 h2
    rw [getClassOfDegree, if_neg (not_le.mpr (by linarith)),
      if_neg (not_le.mpr h2), if_pos h1]
  · intro c h1 h2
    rw [getClassOfDegree, if_neg (not_le.mpr (by linarith)),
      if_neg (not_le.mpr (by linarith)), if_neg (not_le.mpr h2), if_pos h1]
  · intro c h1 h2
    rw [getClassOfDegree, if_neg (not_le.mpr (by linarith)),
      if_neg (not_le.mpr (by linarith)), if_neg (not_le.mpr (by linarith)),
      if_neg (not_le.mpr h2), if_pos (by exact le_trans (by norm_num) h1)]
  · intro c h
    rw [getClassOfDegree, if_neg (not_le.mpr (by linarith)),
      if_neg (not_le.mpr (by linarith)), if_neg (not_le.mpr (by linarith)),
      if_neg (not_le.mpr (by linarith)), if_neg (not_le.mpr (by linarith))]

theorem getClassOfDegree_spec_witness :
    getClassOfDegree 5 = "First Class Honours" :=
  getClassOfDegree_spec.1 5 (by norm_num)

/-- C7: over integer scores in `[0,100]`, `scoreToPoint` is monotonically
non-decreasing, and its value always lies in `\x7b0,1,2,3,4,5\x7d`. -/
theorem scoreToPoint_monotone_bounded :
    (∀ s1 s2 : ℕ, s1 ≤ s2 → s2 ≤ 100 →
        ∀ p1 p2 : ℚ, scoreToPoint (s1 : ℚ) = .ok p1 → scoreToPoint (s2 : ℚ) = .ok p2 →
          p1 ≤ p2) ∧
    (∀ s : ℕ, s ≤ 100 →
        ∃ p : ℚ, scoreToPoint (s : ℚ) = .ok p ∧
          (p = 0 ∨ p = 1 ∨ p = 2 ∨ p = 3 ∨ p = 4 ∨ p = 5)) := by
  constructor
  · intro s1 s2 h12 h2 p1 p2 e1 e2
    rw [scoreToPoint_natCast s1 (h12.trans h2)] at e1
    rw [scoreToPoint_natCast s2 h2] at e2
    obtain rfl := (Except.ok.inj e1).symm
    obtain rfl := (Except.ok.inj e2).symm
    split_ifs <;> (first | omega | norm_num)
  · intro s hs
    refine ⟨_, scoreToPoint_natCast s hs, ?_⟩
    split_ifs <;> norm_num

theorem scoreToPoint_monotone_bounded_witness :
    scoreToPoint ((0 : ℕ) : ℚ) = .ok 0 ∧ scoreToPoint ((100 : ℕ) : ℚ) = .ok 5 ∧ (0 : ℚ) ≤ 5 :=
  ⟨by decide, by decide,
   scoreToPoint_monotone_bounded.1 0 100 (by norm_num) (le_refl 100) 0 5 (by decide) (by decide)⟩

/-- C8: on `[0,100]`, `scoreToPoint` is the composition of `scoreToGrade`
and `gradeToPoint`, and the round-trip holds at every band minimum:
70→A→5, 60→B→4, 50→C→3, 45→D→2, 40→E→1, 0→F→0. -/
theorem scoreToPoint_composition :
    (∀ score : ℚ, 0 ≤ score → score ≤ 100 →
        scoreToPoint score = (scoreToGrade score).map gradeToPoint) ∧
    (scoreToGrade 70 = .ok "A" ∧ gradeToPoint "A" = 5) ∧
    (scoreToGrade 60 = .ok "B" ∧ gradeToPoint "B" = 4) ∧
    (scoreToGrade 50 = .ok "C" ∧ gradeToPoint "C" = 3) ∧
    (scoreToGrade 45 = .ok "D" ∧ gradeToPoint "D" = 2) ∧
    (scoreToGrade 40 = .ok "E" ∧ gradeToPoint "E" = 1) ∧
    (scoreToGrade 0 = .ok "F" ∧ gradeToPoint "F" = 0) :=
  ⟨fun _ _ _ => rfl, by decide, by decide, by decide, by decide, by decide, by decide⟩

theorem scoreToPoint_composition_witness :
    scoreToPoint 70 = (scoreToGrade 70).map gradeToPoint :=
  scoreToPoint_composition.1 70 (by norm_num) (by norm_num)

/-- C4 counterexample: the exception thrown at score `-1` is constructed by
`new Error(...)`, i.e. an object of class `Error`, not a `RangeError`. -/
theorem scoreToGrade_throws_generic_error :
    scoreToGrade (-1) = .error ⟨"Error", "Score must be between 0 and 100"⟩ ∧
    scoreRangeError.name ≠ "RangeError" := by
  constructor
  · rw [scoreToGrade, if_pos (Or.inl (by norm_num))]
    rfl
  · decide

/-- C4 amended: for every score outside `[0,100]`, `scoreToGrade` and
`scoreToPoint` throw the `Error` `'Score must be between 0 and 100'`; the
check fires only in `scoreToGrade` (`scoreToPoint` inherits it by
composition, `gradeToPoint` being total); in `[0,100]` no exception. -/
theorem scoreRange_error_spec :
    (∀ score : ℚ, score < 0 ∨ score > 100 →
        scoreToGrade score = .error scoreRangeError ∧
        scoreToPoint score = .error scoreRangeError) ∧
    (∀ score : ℚ, 0 ≤ score → score ≤ 100 →
        (∃ g, scoreToGrade score = .ok g) ∧ ∃ p, scoreToPoint score = .ok p) ∧
    (∀ score : ℚ, scoreToPoint score = (scoreToGrade score).map gradeToPoint) := by
  refine ⟨?_, ?_, fun _ => rfl⟩
  · intro score h
    have hg : scoreToGrade score = .error scoreRangeError := by
      rw [scoreToGrade, if_pos h]
    exact ⟨hg, by rw [scoreToPoint, hg]; rfl⟩
  · intro score h0 h1
    exact ⟨⟨_, scoreToGrade_eq score h0 h1⟩, ⟨_, scoreToPoint_eq score h0 h1⟩⟩

theorem scoreRange_error_spec_witness :
    scoreToGrade (101 : ℚ) = .error scoreRangeError ∧
    scoreToPoint (101 : ℚ) = .error scoreRangeError :=
  scoreRange_error_spec.1 101 (Or.inr (by norm_num))

/-- C9: `gradeToPoint` folds case before the lookup (`'a'` and `'A'` both
map to 5), and any string whose uppercasing matches no band letter yields
`0` silently. -/
theorem gradeToPoint_case_insensitive :
    gradeToPoint "a" = 5 ∧ gradeToPoint "A" = 5 ∧ gradeToPoint "Z" = 0 ∧
    (∀ grade : String,
        toUpperCase grade ∉ (["A", "B", "C", "D", "E", "F"] : List String) →
        gradeToPoint grade = 0) := by
  refine ⟨by decide, by decide, by decide, ?_⟩
  intro grade h
  rw [gradeToPoint]
  have hfind : GRADING_SCALE.find? (fun g => g.grade == toUpperCase grade) = none := by
    rw [List.find?_eq_none]
    intro x hx
    simp only [GRADING_SCALE, List.mem_cons, List.not_mem_nil, or_false] at hx
    rcases hx with rfl | rfl | rfl | rfl | rfl | rfl <;>
      simp only [beq_iff_eq] <;>
      exact fun e => h (e ▸ (by decide))
  rw [hfind]

theorem gradeToPoint_case_insensitive_witness :
    gradeToPoint "q" = 0 :=
  gradeToPoint_case_insensitive.2.2.2 "q" (by decide)

/-- C10: every score strictly inside a gap between adjacent bands matches
no table entry, so `scoreToGrade` falls back to `'F'` and `scoreToPoint`
returns `0`, with no exception: the fallback branch is reachable. -/
theorem gap_scores_default_F :
    ∀ q : ℚ,
      (39 < q ∧ q < 40) ∨ (44 < q ∧ q < 45) ∨ (49 < q ∧ q < 50) ∨
        (59 < q ∧ q < 60) ∨ (69 < q ∧ q < 70) →
      scoreToGrade q = .ok "F" ∧ scoreToPoint q = .ok 0 := by
  intro q hq
  have h0 : 0 ≤ q := by
    rcases hq with ⟨h, -⟩ | ⟨h, -⟩ | ⟨h, -⟩ | ⟨h, -⟩ | ⟨h, -⟩ <;> linarith
  have h1 : q ≤ 100 := by
    rcases hq with ⟨-, h⟩ | ⟨-, h⟩ | ⟨-, h⟩ | ⟨-, h⟩ | ⟨-, h⟩ <;> linarith
  have hg : scoreToGrade q = .ok "F" := by
    rw [scoreToGrade_eq q h0 h1]
    rcases hq with ⟨ha, hb⟩ | ⟨ha, hb⟩ | ⟨ha, hb⟩ | ⟨ha, hb⟩ | ⟨ha, hb⟩
    · have n70 : ¬ 70 ≤ q := by linarith
      have n60 : ¬ 60 ≤ q := by linarith
      have n50 : ¬ 50 ≤ q := by linarith
      have n45 : ¬ 45 ≤ q := by linarith
      have n40 : ¬ 40 ≤ q := by linarith
      simp [n70, n60, n50, n45, n40]
    · have n70 : ¬ 70 ≤ q := by linarith
      have n60 : ¬ 60 ≤ q := by linarith
      have n50 : ¬ 50 ≤ q := by linarith
      have n45 : ¬ 45 ≤ q := by linarith
      have n44 : ¬ q ≤ 44 := by linarith
      simp [n70, n60, n50, n45, n44]
    · have n70 : ¬ 70 ≤ q := by linarith
      have n60 : ¬ 60 ≤ q := by linarith
      have n50 : ¬ 50 ≤ q := by linarith
      have n49 : ¬ q ≤ 49 := by linarith
      have n44 : ¬ q ≤ 44 := by linarith
      simp [n70, n60, n50, n49, n44]
    · have n70 : ¬ 70 ≤ q := by linarith
      have n60 : ¬ 60 ≤ q := by linarith
      have n59 : ¬ q ≤ 59 := by linarith
      have n49 : ¬ q ≤ 49 := by linarith
      have n44 : ¬ q ≤ 44 := by linarith
      simp [n70, n60, n59, n49, n44]
    · have n70 : ¬ 70 ≤ q := by linarith
      have n69 : ¬ q ≤ 69 := by linarith
      have n59 : ¬ q ≤ 59 := by linarith
      have n49 : ¬ q ≤ 49 := by linarith
      have n44 : ¬ q ≤ 44 := by linarith
      simp [n70, n69, n59, n49, n44]
  exact ⟨hg, by rw [scoreToPoint, hg]; rfl⟩

theorem gap_scores_default_F_witness :
    scoreToGrade (39.5 : ℚ) = .ok "F" ∧ scoreToPoint (39.5 : ℚ) = .ok 0 :=
  gap_scores_default_F 39.5 (Or.inl (by norm_num))

end CGPA
